import Mathlib

/-!
Verification of the SPARQL query-synthesis core of the `prez` repository.

The Python sources under `prez/services/sparql_new.py`,
`prez/services/spaceprez_service.py` and
`prez/services/query_generation/search_fuseki_fts.py` are shallowly embedded
below: pure string-building functions become Lean functions on `String`,
the module-level `profiles_graph_cache` becomes an explicit `PGraph`
argument, `functools.lru_cache` becomes an explicit association-list state
threaded through call functions, and builder classes that construct a query
AST (the Fuseki full-text-search query) become Lean structures.

Python conventions carried over: f-string interpolation of `None` renders
the text `None`; truthiness of an optional value is `none`/empty-string
falsy; truthiness of a list is non-emptiness.
-/

/-! ## Generic string utilities -/

/-- Number of occurrences of character `c` in string `s`. -/
def charCount (c : Char) (s : String) : Nat := s.data.count c

/-- Python's `sep.join(list)`. -/
def joinSep (sep : String) : List String → String
  | [] => ""
  | [s] => s
  | s :: t :: rest => s ++ sep ++ joinSep sep (t :: rest)

/-- Concatenation of a list of strings (Python's `"".join(list)`). -/
def concatAll : List String → String
  | [] => ""
  | s :: rest => s ++ concatAll rest

/-- The decimal digit character for `n % 10`. -/
def digitChar (n : Nat) : Char := Char.ofNat (48 + n % 10)

/-- Decimal digit characters, most significant first; structural recursion
on a fuel bound (`n + 1` is always enough, a number has at most `n + 1`
digits) so that the kernel can evaluate it. -/
def natDigitsGo : Nat → Nat → List Char
  | 0, _ => []
  | fuel + 1, n => if n < 10 then [digitChar n] else natDigitsGo fuel (n / 10) ++ [digitChar n]

/-- Decimal digit characters of `n`, most significant first. -/
def natDigits (n : Nat) : List Char := natDigitsGo (n + 1) n

/-- Decimal rendering of a natural number, as Python renders an `int`. -/
def natRepr (n : Nat) : String := String.mk (natDigits n)

/-- Rendering of a Python `int` (used for limit/offset arithmetic). -/
def intRepr (i : Int) : String :=
  if i < 0 then "-" ++ natRepr i.natAbs else natRepr i.natAbs

/-- Python truthiness of an optional string (`None` and `""` are falsy). -/
def truthyOpt : Option String → Bool
  | none => false
  | some s => !(s = "")

/-- Python truthiness of a list (empty is falsy). -/
def truthyList {α : Type} (l : List α) : Bool := !l.isEmpty

/-! ## Profile-graph model

`sparql_new.py` reads the module-level `profiles_graph_cache` (an
`rdflib.Graph`).  The graph is embedded as a list of (subject, predicate,
object) triples whose terms are rendered as strings; the `rdflib` accessors
used by the source (`objects`, `triples_choices`, `value`, `items`) are
embedded as list filters below.  The graph becomes an explicit argument of
every function that reads it. -/

def PTriple : Type := String × String × String

def PGraph : Type := List PTriple

/-- Namespace helper for `altr-ext:` terms. -/
def altrext (s : String) : String := "http://www.w3.org/ns/dx/conneg/altr-ext#" ++ s

/-- Namespace helper for `sh:` (SHACL) terms. -/
def shacl (s : String) : String := "http://www.w3.org/ns/shacl#" ++ s

def rdfFirst : String := "http://www.w3.org/1999/02/22-rdf-syntax-ns#first"

def rdfRest : String := "http://www.w3.org/1999/02/22-rdf-syntax-ns#rest"

def rdfNil : String := "http://www.w3.org/1999/02/22-rdf-syntax-ns#nil"

/-- The objects of all triples `(s, p, _)` (rdflib `Graph.objects`). -/
def graphObjects (g : PGraph) (s p : String) : List String :=
  (g.filter (fun t => t.1 == s && t.2.1 == p)).map (fun t => t.2.2)

/-- The triples whose subject lies in `subjects`, with predicate `p` and,
when given, object `o` (rdflib `Graph.triples_choices` as the source calls
it: a list of subject choices, a fixed predicate, a fixed or wildcarded
object). -/
def graphTriplesChoices (g : PGraph) (subjects : List String) (p : String)
    (o : Option String) : List PTriple :=
  subjects.flatMap (fun s =>
    g.filter (fun t => t.1 == s && t.2.1 == p &&
      (match o with | none => true | some ov => t.2.2 == ov)))

/-- rdflib `Graph.value(s, p, default=d)` for the integer-valued
`altr-ext:hasBNodeDepth` annotation: the first object if any, else the
default.  The source relies on the literal being integer-valued (it is fed
to `range`); the embedding parses the decimal text, falling back to the
default. -/
def graphValueNat (g : PGraph) (s p : String) (default : Nat) : Nat :=
  match graphObjects g s p with
  | [] => default
  | o :: _ => o.toNat?.getD default

/-- rdflib `Graph.items(node)`: traversal of an RDF list along
`rdf:first`/`rdf:rest` until `rdf:nil`.  Fuel bounds the traversal; a
well-formed (acyclic) list is shorter than the graph, and on a cyclic list
the source itself would not terminate. -/
def rdfListItemsGo (g : PGraph) : Nat → String → List String
  | 0, _ => []
  | fuel + 1, node =>
    if node == rdfNil then []
    else
      match graphObjects g node rdfFirst with
      | [] => []
      | v :: _ =>
        match graphObjects g node rdfRest with
        | [] => [v]
        | r :: _ => v :: rdfListItemsGo g fuel r

def rdfListItems (g : PGraph) (node : String) : List String :=
  rdfListItemsGo g (g.length + 1) node

/-! ## Predicate resolution (`sparql_new.py`) -/

/-- Embedding of `get_relevant_shape_bns_for_profile`: the shape nodes of
`profile` whose `sh:targetClass` is `selected_class`; `none` when the
profile declares no node shapes at all (the source returns `None` there and
a list, possibly empty, otherwise). -/
def get_relevant_shape_bns_for_profile (g : PGraph) (selected_class profile : String) :
    Option (List String) :=
  let shape_bns := graphObjects g profile (altrext ("hasNodeShape"))
  if shape_bns.isEmpty then none
  else some ((graphTriplesChoices g shape_bns (shacl ("targetClass"))
    (some selected_class)).map (fun t => t.1))

/-- Embedding of `get_listing_predicates`: the four listing predicate lists
(inbound children, inbound parents, outbound children, outbound parents)
read off the relevant shapes; all empty when no shape applies (`if not
shape_bns` in the source catches both `None` and the empty list). -/
def get_listing_predicates (g : PGraph) (profile selected_class : String) :
    List String × List String × List String × List String :=
  match get_relevant_shape_bns_for_profile g selected_class profile with
  | none => ([], [], [], [])
  | some shape_bns =>
    if shape_bns.isEmpty then ([], [], [], [])
    else
      ((graphTriplesChoices g shape_bns (altrext ("inboundChildren")) none).map (fun t => t.2.2),
       (graphTriplesChoices g shape_bns (altrext ("inboundParents")) none).map (fun t => t.2.2),
       (graphTriplesChoices g shape_bns (altrext ("outboundChildren")) none).map (fun t => t.2.2),
       (graphTriplesChoices g shape_bns (altrext ("outboundParents")) none).map (fun t => t.2.2))

/-- Result of `get_item_predicates`.  The source returns a 4-tuple
`(includes, excludes, inverses, sequence_paths)` whose components are
`None` when no shape applies; `excludes` is never looked up — the source
assigns the `Ellipsis` placeholder (`excludes = ...`), recorded here as a
Boolean flag. -/
structure ItemPreds where
  includes : Option (List String)
  excludesPlaceholder : Bool
  inverses : Option (List String)
  sequences : Option (List (List String))
deriving DecidableEq, Repr

/-- Embedding of `get_item_predicates`: include (`sh:path`), inverse
(`sh:inversePath`) and sequence (`sh:sequencePath`, an RDF list per shape)
predicates of the shapes relevant to `(profile, selected_class)`.  The
source carries no `lru_cache` decorator (unlike `generate_item_construct`
directly above it): every call runs this body. -/
def get_item_predicates (g : PGraph) (profile selected_class : String) : ItemPreds :=
  match get_relevant_shape_bns_for_profile g selected_class profile with
  | none => ⟨none, false, none, none⟩
  | some shape_bns =>
    if shape_bns.isEmpty then ⟨none, false, none, none⟩
    else
      let includes := (graphTriplesChoices g shape_bns (shacl ("path")) none).map (fun t => t.2.2)
      let inverses := (graphTriplesChoices g shape_bns (shacl ("inversePath")) none).map (fun t => t.2.2)
      let seqNodes := (graphTriplesChoices g shape_bns (shacl ("sequencePath")) none).map (fun t => t.2.2)
      ⟨some includes, true, some inverses, some (seqNodes.map (rdfListItems g))⟩

/-- Number of profile-graph lookups (`objects`/`triples_choices`/`items`
calls) one invocation of `get_item_predicates` performs; the call-count
probe of the memoization claim.  Every invocation scans the graph at least
once (the `hasNodeShape` lookup): the function is not memoized. -/
def get_item_predicates_probes (g : PGraph) (profile selected_class : String) : Nat :=
  let shape_bns := graphObjects g profile (altrext ("hasNodeShape"))
  if shape_bns.isEmpty then 1
  else
    let relevant := (graphTriplesChoices g shape_bns (shacl ("targetClass"))
      (some selected_class)).map (fun t => t.1)
    if relevant.isEmpty then 2
    else
      let seqNodes := (graphTriplesChoices g relevant (shacl ("sequencePath")) none).map
        (fun t => t.2.2)
      5 + seqNodes.length

/-! ## Blank-node fragment builders (`generate_bnode_construct`,
`generate_bnode_select`) -/

/-- Python's `chr(9) * n`. -/
def tabs (n : Nat) : String := String.mk (List.replicate n '\t')

/-- The blank-node expansion triple `?o_(i+1) ?p_(i+2) ?o_(i+2) .` shared by
the CONSTRUCT line and the WHERE line for traversal step `i`. -/
def bnodeTriple (i : Nat) : String :=
  "?o" ++ natRepr (i + 1) ++ " ?p" ++ natRepr (i + 2) ++ " ?o" ++ natRepr (i + 2) ++ " ."

/-- One line of the CONSTRUCT comprehension: `f"\t?o{i+1} ?p{i+2} ?o{i+2} ."`. -/
def bnodeConstructLine (i : Nat) : String := "\t" ++ bnodeTriple i

/-- Embedding of `generate_bnode_construct`. -/
def generate_bnode_construct (depth : Nat) : String :=
  "\n" ++ joinSep ("\n") ((List.range depth).map bnodeConstructLine)

/-- The blank-node guard `FILTER(ISBLANK(?o_(i+1)))` of traversal step `i`. -/
def isblankGuard (i : Nat) : String := "FILTER(ISBLANK(?o" ++ natRepr (i + 1) ++ "))"

/-- One block opener of the WHERE comprehension in `generate_bnode_select`:
tabs, `OPTIONAL {`, the ISBLANK guard and the traversal triple. -/
def bnodeSelectLine (i : Nat) : String :=
  tabs (i + 1) ++ "OPTIONAL \x7b\n" ++ tabs (i + 2) ++ isblankGuard i ++ "\n"
    ++ tabs (i + 2) ++ bnodeTriple i

/-- One closing line of `part_two`: `f"{chr(10)}{chr(9) * (i + 1)}}}"`. -/
def bnodeCloser (i : Nat) : String := "\n" ++ tabs (i + 1) ++ "\x7d"

/-- `part_one` of `generate_bnode_select`: the newline-joined block openers. -/
def bnodeSelectPartOne (depth : Nat) : String :=
  joinSep ("\n") ((List.range depth).map bnodeSelectLine)

/-- `part_two` of `generate_bnode_select`: the closing braces, innermost
index first (`reversed(range(depth))`). -/
def bnodeSelectPartTwo (depth : Nat) : String :=
  concatAll (((List.range depth).reverse).map bnodeCloser)

/-- Embedding of `generate_bnode_select`. -/
def generate_bnode_select (depth : Nat) : String :=
  bnodeSelectPartOne depth ++ bnodeSelectPartTwo depth

/-! ## Sequence-path fragment builder (`generate_sequence_construct`) -/

/-- First triple of a chain: `f"\t<{object_uri}> <{predicate_list[0]}> ?seq_o1 ."`. -/
def seqFirstTriple (object_uri p : String) : String :=
  "\t<" ++ object_uri ++ "> <" ++ p ++ "> ?seq_o1 ."

/-- The remaining triples of a chain, `ps` being the predicates from
position `i` on: the source loop `for i in range(1, len(predicate_list))`
appends `f"\n\t?seq_o{i} <{predicate_list[i]}> ?seq_o{i + 1} ."`. -/
def seqRest (i : Nat) : List String → String
  | [] => ""
  | p :: ps =>
    "\n\t?seq_o" ++ natRepr i ++ " <" ++ p ++ "> ?seq_o" ++ natRepr (i + 1) ++ " ."
      ++ seqRest (i + 1) ps

/-- Rendering of one chain (`construct_and_where` in the source).  The
source indexes `predicate_list[0]` and so requires a non-empty chain
(an empty chain would raise `IndexError`); the embedding renders the empty
chain as the empty string and the theorems assume non-emptiness. -/
def renderSeqChain (object_uri : String) : List String → String
  | [] => ""
  | p :: ps => seqFirstTriple object_uri p ++ seqRest 1 ps

/-- Embedding of `generate_sequence_construct`: the chain renderings
accumulated in order (`all_sequence_construct += construct_and_where`),
guarded by the truthiness check of the source. -/
def generate_sequence_construct (object_uri : String)
    (sequence_predicates : List (List String)) : String :=
  if truthyList sequence_predicates then
    concatAll (sequence_predicates.map (renderSeqChain object_uri))
  else ""

/-- Abstract triple view of one rendered chain, tail part: the `k`-th
element of `seqTriplesAux i ps` is `(?seq_o_(i+k), ps[k], ?seq_o_(i+k+1))`. -/
def seqTriplesAux (i : Nat) : List String → List (String × String × String)
  | [] => []
  | p :: ps => ("?seq_o" ++ natRepr i, p, "?seq_o" ++ natRepr (i + 1)) :: seqTriplesAux (i + 1) ps

/-- Abstract triple view of one rendered chain: subject of the first triple
is the bracketed object URI, each later subject is the previous object
variable. -/
def seqTriples (object_uri : String) : List String → List (String × String × String)
  | [] => []
  | p :: _ps => ("<" ++ object_uri ++ ">", p, "?seq_o1") :: seqTriplesAux 1 _ps

/-- Text of one triple of the abstract view. -/
def renderSeqTriple (t : String × String × String) : String :=
  t.1 ++ " <" ++ t.2.1 ++ "> " ++ t.2.2 ++ " ."

/-- Rendering of an abstract triple list: tab before the first triple,
newline-tab before each later one. -/
def renderTriplesList : List (String × String × String) → String
  | [] => ""
  | t :: ts => "\t" ++ renderSeqTriple t ++ concatAll (ts.map (fun t2 => "\n\t" ++ renderSeqTriple t2))

/-! ## Full-text-search query builder
(`prez/services/query_generation/search_fuseki_fts.py`)

`SearchQueryFusekiFTS.__init__` builds a `sparql_grammar_pydantic` AST: a
CONSTRUCT template over a sub-SELECT that calls the Fuseki `text:query`
property function once per predicate group, binds the hash identifier, and
carries ORDER BY / LIMIT / OFFSET in the sub-SELECT solution modifier.  The
AST is embedded by structures holding exactly the components the source
sets; the `PREZ` namespace (from `prez.reference_data.prez_ns`, not under
`src/`) is `https://prez.dev/` as the class docstring's generated-query
example shows. -/

/-- Python `str.split(sep)` for a one-character separator: split at every
occurrence, keeping empty fields (so consecutive separators produce empty
strings, and no other character splits). -/
def pySplitCh (sep : Char) : List Char → List (List Char)
  | [] => [[]]
  | c :: rest =>
    let r := pySplitCh sep rest
    if c = sep then [] :: r
    else (c :: r.headD []) :: r.tail

/-- Python `sep.join(fields)` for a one-character separator. -/
def joinCh (sep : Char) : List (List Char) → List Char
  | [] => []
  | [x] => x
  | x :: y :: rest => x ++ sep :: joinCh sep (y :: rest)

/-- The source's term normalization: `term = "+".join(term.split(" "))`. -/
def normalizeTerm (t : String) : String := String.mk (joinCh '+' (pySplitCh ' ' t.data))

/-- Independent characterization: every space character replaced by `+`,
all other characters (including tabs and newlines) unchanged. -/
def spacesToPlus (t : String) : String :=
  String.mk (t.data.map (fun c => if c = ' ' then '+' else c))

/-- SPARQL expression tree, as much of the grammar AST as the hash bind
uses: variables, literals, IRIs and built-in calls. -/
inductive SExpr where
  | v : String → SExpr
  | lit : String → SExpr
  | iri : String → SExpr
  | builtin : String → List SExpr → SExpr

/-- Fuel-bounded evaluator for `SExpr` under a variable environment and an
abstract SHA256 function: `STR` of a bound term is its string form, `CONCAT`
concatenates, `SHA256` applies the abstract hash, `URI` wraps its argument
value. -/
def evalExprF (sha env : String → String) : Nat → SExpr → String
  | 0, _ => ""
  | fuel + 1, e =>
    match e with
    | .v x => env x
    | .lit s => s
    | .iri s => s
    | .builtin name args =>
      if name = "CONCAT" then concatAll (args.map (evalExprF sha env fuel))
      else if name = "SHA256" then sha ((args.map (evalExprF sha env fuel)).headD "")
      else if name = "STR" then (args.map (evalExprF sha env fuel)).headD ""
      else if name = "URI" then (args.map (evalExprF sha env fuel)).headD ""
      else ""

/-- One `text:query` triples block generated by
`_generate_fts_triples_block`: the focus variable of the collection
`(?focus_node ?weight ?match ?g ?pred)`, the predicate list and the search
term literal of the object collection. -/
structure FtsTriplesBlock where
  focusVar : String
  preds : List String
  termLit : String
deriving DecidableEq, Repr

/-- One group graph pattern of the union: an optional property-path triples
prefix (opaque rendering of the caller's `tssp_list`, kept abstract) and the
`text:query` block. -/
structure FtsGroupBlock where
  pathTriples : List String
  block : FtsTriplesBlock
deriving DecidableEq, Repr

/-- The sub-SELECT of the search query: projected variables, the hash bind
`(expr AS ?hashID)`, the union of group blocks, and the solution modifier
(order conditions, limit, offset). -/
structure FtsSubSelect where
  selectVars : List String
  bindExpr : SExpr
  bindVar : String
  groupBlocks : List FtsGroupBlock
  orderConds : List (String × String)
  limit : Int
  offset : Int

/-- The whole CONSTRUCT query: construct-template triples (subject,
predicate, object tokens) over the sub-SELECT. -/
structure FtsQuery where
  constructTriples : List (String × String × String)
  sub : FtsSubSelect

/-- Namespace helper for `prez:` terms of the search result decoration. -/
def PREZns (s : String) : String := "https://prez.dev/" ++ s

/-- Embedding of `SearchQueryFusekiFTS.__init__`.  In source order: the
limit is incremented by one (`limit += 1`), the term is normalized
(`term = "+".join(term.split(" "))`), the construct triples are the five
`ct_map` entries (weight, predicate, match, URI, type — Python dict
insertion order) followed by the caller's `tss_list`, the union gets one
block for the plain predicates when that list is truthy and one block per
`shacl_tssp_preds` entry (focus variable `fts_search_node`), and the
sub-SELECT carries the hash bind, ORDER BY weight DESC and the
adjusted limit with the unchanged offset.  (The Python default
`shacl_tssp_preds=None` would raise on iteration; callers pass a list,
embedded as such.) -/
def mkSearchQueryFusekiFTS (term : String) (limit offset : Int)
    (non_shacl_predicates : Option (List String))
    (shacl_tssp_preds : List (List String × List String))
    (tss_list : List (String × String × String)) : FtsQuery :=
  let limit := limit + 1
  let term := normalizeTerm term
  let construct_tss_list : List (String × String × String) :=
    [("?hashID", PREZns ("searchResultWeight"), "?weight"),
     ("?hashID", PREZns ("searchResultPredicate"), "?pred"),
     ("?hashID", PREZns ("searchResultMatch"), "?match"),
     ("?hashID", PREZns ("searchResultURI"), "?focus_node"),
     ("?hashID", "http://www.w3.org/1999/02/22-rdf-syntax-ns#type", PREZns ("SearchResult"))]
    ++ tss_list
  let ggp_list : List FtsGroupBlock :=
    (match non_shacl_predicates with
     | none => []
     | some ps => if ps.isEmpty then [] else [⟨[], ⟨"focus_node", ps, term⟩⟩])
    ++ shacl_tssp_preds.map (fun pr => ⟨pr.1, ⟨"fts_search_node", pr.2, term⟩⟩)
  let hashExpr : SExpr :=
    .builtin ("URI") [.builtin ("CONCAT") [.lit ("urn:hash:"),
      .builtin ("SHA256") [.builtin ("CONCAT") [
        .builtin ("STR") [.v ("focus_node")],
        .builtin ("STR") [.v ("pred")],
        .builtin ("STR") [.v ("match")],
        .builtin ("STR") [.v ("weight")]]]]]
  { constructTriples := construct_tss_list,
    sub := { selectVars := ["focus_node", "pred", "match", "weight"],
             bindExpr := hashExpr,
             bindVar := "hashID",
             groupBlocks := ggp_list,
             orderConds := [("weight", "DESC")],
             limit := limit,
             offset := offset } }

/-- The `limit` property of the class: the limit clause of the sub-SELECT
solution modifier. -/
def FtsQuery.innerLimit (q : FtsQuery) : Int := q.sub.limit

/-- The `offset` property of the class. -/
def FtsQuery.innerOffset (q : FtsQuery) : Int := q.sub.offset

/-- The order conditions of the sub-SELECT solution modifier. -/
def FtsQuery.innerOrder (q : FtsQuery) : List (String × String) := q.sub.orderConds

/-- The expression of the hash bind `(expr AS ?hashID)` in the sub-SELECT
projection. -/
def FtsQuery.hashExprOf (q : FtsQuery) : SExpr := q.sub.bindExpr

/-- The variable of the hash bind. -/
def FtsQuery.hashVarOf (q : FtsQuery) : String := q.sub.bindVar

/-! ## Item descriptors and listing/item construct queries
(`sparql_new.py`, continued) -/

/-- The item descriptor as the construct generators use it: `uri` (absent
for class-level listings), selected class, general class and the link
constructor template. -/
structure Item where
  uri : Option String
  selected_class : String
  general_class : String
  link_constructor : String
deriving DecidableEq, Repr

/-- Python f-string interpolation of an optional value: `None` renders as
the text `None`. -/
def pyStrOpt : Option String → String
  | none => "None"
  | some s => s

/-- Python truthiness of an optional list (`None` and `[]` falsy). -/
def truthyOptList {α : Type} : Option (List α) → Bool
  | none => false
  | some l => !l.isEmpty

/-- Embedding of `generate_outbound_predicates`. -/
def generate_outbound_predicates (item : Item)
    (outbound_children outbound_parents : List String) : String :=
  if truthyOpt item.uri then
    (if truthyList outbound_children then
      "<" ++ pyStrOpt item.uri ++ "> ?outbound_children ?item .\n            ?item dcterms:identifier ?outbound_children_id .\n            FILTER(DATATYPE(?outbound_children_id) = xsd:token)\n            VALUES ?outbound_children \x7b " ++ joinSep (" ") (outbound_children.map (fun p => "<" ++ p ++ ">")) ++ " \x7d\n"
     else "")
    ++ (if truthyList outbound_parents then
      "<" ++ pyStrOpt item.uri ++ "> ?outbound_parents ?item .\n            ?item dcterms:identifier ?outbound_parents_id .\n            FILTER(DATATYPE(?outbound_parents_id) = xsd:token)\n            VALUES ?outbound_parents \x7b " ++ joinSep (" ") (outbound_parents.map (fun p => "<" ++ p ++ ">")) ++ " \x7d\n"
     else "")
    ++ (if !truthyList outbound_children && !truthyList outbound_parents then
      "VALUES ?outbound_children \x7b\x7d\nVALUES ?outbound_parents \x7b\x7d"
     else "")
  else ""

/-- Embedding of `generate_inbound_predicates`. -/
def generate_inbound_predicates (item : Item)
    (inbound_children inbound_parents : List String) : String :=
  if !truthyList inbound_children && !truthyList inbound_parents then ""
  else
    (if truthyList inbound_children then
      "?inbound_child_s ?inbound_child <" ++ pyStrOpt item.uri ++ "> ;\n        dcterms:identifier ?inbound_children_id .\n        FILTER(DATATYPE(?inbound_children_id) = xsd:token)\n        VALUES ?inbound_child \x7b " ++ joinSep (" ") (inbound_children.map (fun p => "<" ++ p ++ ">")) ++ " \x7d\n"
     else "")
    ++ (if truthyList inbound_parents then
      "?inbound_parent_s ?inbound_parent <" ++ pyStrOpt item.uri ++ "> ;\n        dcterms:identifier ?inbound_parent_id .\n        FILTER(DATATYPE(?inbound_parent_id) = xsd:token)\n        VALUES ?inbound_parent \x7b " ++ joinSep (" ") (inbound_parents.map (fun p => "<" ++ p ++ ">")) ++ " \x7d\n"
     else "")

/-- Embedding of `generate_id_listing_binds`; the fallback BIND is emitted
exactly when the accumulated binds are empty (all four lists falsy). -/
def generate_id_listing_binds (item : Item) (ic ip oc op : List String) : String :=
  let binds :=
    (if truthyList ic then
      "BIND(CONCAT(\"" ++ item.link_constructor ++ "\", \"/\", STR(?inbound_children_id))AS ?inbound_children_link)\n"
     else "")
    ++ (if truthyList oc then
      "BIND(CONCAT(\"" ++ item.link_constructor ++ "\", \"/\", STR(?outbound_children_id))AS ?outbound_children_link)\n"
     else "")
    ++ (if truthyList ip then
      "BIND(\"" ++ item.link_constructor ++ "\" AS ?inbound_parent_link)\n"
     else "")
    ++ (if truthyList op then
      "BIND(\"" ++ item.link_constructor ++ "\" AS ?outbound_parent_link)\n"
     else "")
  if binds = "" then
    "BIND(CONCAT(\"" ++ item.link_constructor ++ "\", \"/\", STR(?outbound_id))AS ?outbound_general_link)\n"
  else binds

/-- Embedding of `generate_include_predicates` (`VALUES ?p { ... }` for a
truthy include list, empty otherwise). -/
def generate_include_predicates (include_predicates : Option (List String)) : String :=
  if truthyOptList include_predicates then
    "VALUES ?p\x7b\n" ++ joinSep ("\n") ((include_predicates.getD []).map (fun p => "<" ++ p ++ ">")) ++ "\n\x7d"
  else ""

/-- Embedding of `generate_inverse_predicates`. -/
def generate_inverse_predicates (inverse_predicates : Option (List String)) : String :=
  if truthyOptList inverse_predicates then
    "VALUES ?inbound_p\x7b\n" ++ joinSep ("\n") ((inverse_predicates.getD []).map (fun p => "<" ++ p ++ ">")) ++ "\n\x7d"
  else ""

/-- Embedding of `generate_listing_construct`: the empty-string sentinel
when the parent has a (truthy) URI and all four resolved predicate lists
are empty, the full construct query otherwise.  The query text transcribes
the source f-string, including the Python line-continuation joins. -/
def generate_listing_construct (g : PGraph) (parent_item : Item) (profile : String)
    (page per_page : Option Int) : String :=
  let preds := get_listing_predicates g profile parent_item.selected_class
  let inbound_children := preds.1
  let inbound_parents := preds.2.1
  let outbound_children := preds.2.2.1
  let outbound_parents := preds.2.2.2
  if truthyOpt parent_item.uri && !truthyList inbound_children && !truthyList inbound_parents
      && !truthyList outbound_children && !truthyList outbound_parents then ""
  else
    "PREFIX dcterms: <http://purl.org/dc/terms/>\nPREFIX prez: <https://kurrawong.net/prez/>\nPREFIX rdf: <http://www.w3.org/1999/02/22-rdf-syntax-ns#>\nPREFIX rdfs: <http://www.w3.org/2000/01/rdf-schema#>\nPREFIX xsd: <http://www.w3.org/2001/XMLSchema#>\nPREFIX skos: <http://www.w3.org/2004/02/skos/core#>\n\nCONSTRUCT \x7b\n"
    ++ (if truthyList outbound_children || truthyOpt parent_item.uri then
        "<" ++ pyStrOpt parent_item.uri ++ "> ?outbound_children ?item .?item prez:link ?outbound_children_link .\n" else "")
    ++ (if truthyList outbound_parents || truthyOpt parent_item.uri then
        "<" ++ pyStrOpt parent_item.uri ++ "> ?outbound_parents ?item .?item prez:link ?outbound_parents_link .\n" else "")
    ++ (if truthyList inbound_children then
        "?inbound_child_s ?inbound_child <" ++ pyStrOpt parent_item.uri ++ "> ;prez:link ?inbound_children_link .\n" else "")
    ++ (if truthyList inbound_parents then
        "?inbound_parent_s ?inbound_parent <" ++ pyStrOpt parent_item.uri ++ "> ;prez:link ?inbound_parent_link .\n" else "")
    ++ "        ?item rdfs:label ?label .\n"
    ++ (if !truthyOpt parent_item.uri then
        "prez:memberList a rdf:Bag ;\n                rdfs:member ?item .\n    ?item prez:link ?outbound_general_link" else "")
    ++ " "
    ++ "    \x7d\nWHERE \x7b\n"
    ++ generate_outbound_predicates parent_item outbound_children outbound_parents ++ " "
    ++ generate_inbound_predicates parent_item inbound_children inbound_parents ++ " "
    ++ "    "
    ++ (if !truthyOpt parent_item.uri then
        "?item a <" ++ parent_item.general_class ++ "> .\n    ?item dcterms:identifier ?outbound_id . " else "")
    ++ "\n"
    ++ "    ?item rdfs:label|dcterms:title|skos:prefLabel ?label .\n"
    ++ generate_id_listing_binds parent_item inbound_children inbound_parents outbound_children outbound_parents
    ++ "\n"
    ++ "    \x7d "
    ++ (match page, per_page with
        | some pg, some pp => "LIMIT " ++ intRepr pp ++ " OFFSET " ++ intRepr ((pg - 1) * pp)
        | _, _ => "")
    ++ "\n    "

/-- Head of the item construct query, through the first CONSTRUCT triple:
`f"""PREFIX rdfs: ...\n\nCONSTRUCT {{\n\t<{object_uri}> ?p ?o1 .\n"""`. -/
def itemConstructHead (object_uri : Option String) : String :=
  "PREFIX rdfs: <http://www.w3.org/2000/01/rdf-schema#>\n\nCONSTRUCT \x7b\n\t<"
    ++ pyStrOpt object_uri ++ "> ?p ?o1 .\n"

/-- Everything after `itemConstructHead` in the item construct query,
transcribing the source f-string (line-continuation backslashes eat the
newlines; `chr(9)`/`chr(10)` are tab and newline). -/
def restOfItemConstruct (g : PGraph) (item : Item) (profile : String) : String :=
  let object_uri := item.uri
  let preds := get_item_predicates g profile item.selected_class
  let bnode_depth := graphValueNat g profile (altrext ("hasBNodeDepth")) 2
  let seqT := truthyOptList preds.sequences
  let invT := truthyOptList preds.inverses
  (if seqT then generate_sequence_construct (pyStrOpt object_uri) (preds.sequences.getD []) else "")
  ++ "\n"
  ++ (if invT then "\t?s ?inbound_p <" ++ pyStrOpt object_uri ++ "> ." else "") ++ "\n"
  ++ generate_bnode_construct bnode_depth ++ " "
  ++ "\n\x7d\nWHERE \x7b\n    \x7b\n    <" ++ pyStrOpt object_uri ++ "> ?p ?o1 . \n "
  ++ (if seqT then generate_sequence_construct (pyStrOpt object_uri) (preds.sequences.getD []) else "\n") ++ " "
  ++ "    " ++ (if invT then "?s ?inbound_p <" ++ pyStrOpt object_uri ++ ">\n" else "\n") ++ " "
  ++ "    " ++ generate_include_predicates preds.includes ++ " "
  ++ "    " ++ generate_inverse_predicates preds.inverses ++ " "
  ++ "    " ++ generate_bnode_select bnode_depth ++ " "
  ++ "    \x7d "
  ++ "\x7d\n"

/-- Embedding of `generate_item_construct` (the function body; the
`lru_cache` wrapper around it is modelled by
`call_generate_item_construct`).  Performs no check on `item.uri`: a
missing URI is interpolated as the text `None`. -/
def generate_item_construct (g : PGraph) (item : Item) (profile : String) : String :=
  itemConstructHead item.uri ++ restOfItemConstruct g item profile

/-! ## Profile/mediatype negotiation query (`select_profile_mediatype`) -/

/-- Embedding of `generate_mediatype_if_statements`.  The source joins a
Python set comprehension (iteration order implementation-defined,
duplicates collapsed); the embedding keeps the caller's list order, which
the negotiation theorems never inspect. -/
def generate_mediatype_if_statements (requested_mediatypes : List (String × String)) : String :=
  "BIND(\n"
  ++ joinSep (",\n") (requested_mediatypes.map (fun tup =>
      "IF(?format=\"" ++ tup.2 ++ "\", \"" ++ tup.1 ++ "\""))
  ++ ", \"\"" ++ String.mk (List.replicate requested_mediatypes.length ')') ++ "\n"
  ++ "AS ?req_format)"

/-- The constant tail of the negotiation query: GROUP BY the seven
variables, ORDER BY the five DESC keys, LIMIT 1. -/
def selectProfileMediatypeTail : String :=
  "\nGROUP BY ?class ?profile ?req_profile ?def_profile ?format ?req_format ?def_format\nORDER BY DESC(?req_profile) DESC(?distance) DESC(?def_profile) DESC(?req_format) DESC(?def_format)\nLIMIT 1\n        "

/-- Everything before the tail in `select_profile_mediatype`. -/
def selectProfileMediatypeBody (classes : List String) (requested_profile : Option String)
    (requested_mediatypes : Option (List (String × String))) : String :=
  "\nPREFIX dcat: <http://www.w3.org/ns/dcat#>\nPREFIX sh: <http://www.w3.org/ns/shacl#>\nPREFIX geo: <http://www.opengis.net/ont/geosparql#>\nPREFIX rdfs: <http://www.w3.org/2000/01/rdf-schema#>\nPREFIX altr-ext: <http://www.w3.org/ns/dx/conneg/altr-ext#>\nPREFIX dcterms: <http://purl.org/dc/terms/>\nPREFIX prez: <https://kurrawong.net/prez/>\n\nSELECT ?profile ?class (count(?mid) as ?distance) ?req_profile ?def_profile ?format ?req_format ?def_format\n\nWHERE \x7b\n  VALUES ?class \x7b"
  ++ joinSep (" ") (classes.map (fun k => "<" ++ k ++ ">"))
  ++ "\x7d\n  ?class rdfs:subClassOf* ?mid .\n  ?mid rdfs:subClassOf* ?general_class .\n  VALUES ?general_class \x7b dcat:Dataset geo:FeatureCollection prez:FeatureCollectionList prez:FeatureList geo:Feature\n  skos:ConceptScheme skos:Concept skos:Collection prez:DatasetList prez:VocPrezCollectionList prez:SchemesList\n  prez:CatalogList dcat:Catalog dcat:Resource \x7d\n  ?profile altr-ext:constrainsClass ?class ;\n           altr-ext:hasResourceFormat ?format .\n  "
  ++ (if truthyOpt requested_profile then
      "BIND(?profile=<" ++ pyStrOpt requested_profile ++ "> as ?req_profile)" else "")
  ++ "\n  BIND(EXISTS \x7b ?shape sh:targetClass ?class ;\n                       altr-ext:hasDefaultProfile ?profile \x7d AS ?def_profile)\n  "
  ++ (if truthyOptList requested_mediatypes then
      generate_mediatype_if_statements (requested_mediatypes.getD []) else "")
  ++ "\n  BIND(EXISTS \x7b ?profile altr-ext:hasDefaultResourceFormat ?format \x7d AS ?def_format)\n\x7d\n"

/-- Embedding of `select_profile_mediatype`. -/
def select_profile_mediatype (classes : List String) (requested_profile : Option String)
    (requested_mediatypes : Option (List (String × String))) : String :=
  selectProfileMediatypeBody classes requested_profile requested_mediatypes
    ++ selectProfileMediatypeTail

/-! ## SpacePrez service queries (`spaceprez_service.py`) -/

/-- Modelled from the spec: the CONSTRUCT fragment constants
(`construct_all_prop_obj_info`, `construct_all_bnode_prop_obj_info`,
`get_all_prop_obj_info`, `get_all_bnode_prop_obj_info`) are imported from
`prez/services/sparql_utils.py`, which is not under `src/`.  Per the spec
they expand direct property/object values and bounded blank-node structure;
their exact text is irrelevant to the claims settled here, which concern
the error path and the interpolation of `dataset_id`. -/
def construct_all_prop_obj_info : String := "?o1 ?p2 ?o2 ."

/-- Modelled from the spec: see `construct_all_prop_obj_info`. -/
def construct_all_bnode_prop_obj_info : String := "?o2 ?p3 ?o3 ."

/-- Modelled from the spec: see `construct_all_prop_obj_info`. -/
def get_all_prop_obj_info : String := "OPTIONAL \x7b ?o1 ?p2 ?o2 \x7d"

/-- Modelled from the spec: see `construct_all_prop_obj_info`. -/
def get_all_bnode_prop_obj_info : String := "OPTIONAL \x7b FILTER(ISBLANK(?o1)) ?o1 ?p2 ?o2 \x7d"

/-- Embedding of `get_dataset_construct` up to the store call: raises
(`Except.error`) with the source's message when neither an identifier nor a
URI is supplied (`dataset_id is None and dataset_uri is None`), otherwise
returns the constructed query that would be handed to the store. -/
def get_dataset_construct_query (dataset_id dataset_uri : Option String) :
    Except String String :=
  match dataset_id, dataset_uri with
  | none, none => .error ("Either an ID or a URI must be provided for a SPARQL query")
  | _, _ =>
    let query_by_id :=
      "\n        ?d dcterms:identifier \"" ++ pyStrOpt dataset_id
        ++ "\"^^xsd:token ;\n            a dcat:Dataset .\n        BIND(\""
        ++ pyStrOpt dataset_id ++ "\" AS ?id)\n    "
    let query_by_uri :=
      "\n        BIND (<" ++ pyStrOpt dataset_uri ++ "> as ?d)\n        ?d a dcat:Dataset .\n    "
    .ok ("\n        PREFIX dcat: <http://www.w3.org/ns/dcat#>\n        PREFIX dcterms: <http://purl.org/dc/terms/>\n        PREFIX rdfs: <http://www.w3.org/2000/01/rdf-schema#>\n        PREFIX xsd: <http://www.w3.org/2001/XMLSchema#>\n        CONSTRUCT \x7b\n            ?d ?p1 ?o1 ;\n                rdfs:member ?coll .\n            ?coll dcterms:identifier ?coll_id ;\n                dcterms:title ?coll_title .\n            "
      ++ construct_all_prop_obj_info ++ "\n            "
      ++ construct_all_bnode_prop_obj_info ++ "\n        \x7d\n        WHERE \x7b\n            "
      ++ (if dataset_id ≠ none then query_by_id else query_by_uri)
      ++ "\n            ?d ?p1 ?o1 ;\n                rdfs:member ?coll .\n            ?coll dcterms:identifier ?coll_id ;\n                dcterms:title ?coll_title .\n            "
      ++ get_all_bnode_prop_obj_info ++ "\n            "
      ++ get_all_prop_obj_info ++ "\n        \x7d\n    ")

/-- The text of `get_dataset_label`'s query before the interpolated
`dataset_id`. -/
def datasetLabelQueryPre : String :=
  "\n        PREFIX dcat: <http://www.w3.org/ns/dcat#>\n        PREFIX dcterms: <http://purl.org/dc/terms/>\n        PREFIX xsd: <http://www.w3.org/2001/XMLSchema#>\n        SELECT ?title\n        WHERE \x7b\n            ?d a dcat:Dataset ;\n                dcterms:title ?title ;\n                dcterms:identifier ?d_id .\n            FILTER (STR(?d_id) = \""

/-- The text of `get_dataset_label`'s query after the interpolated
`dataset_id`. -/
def datasetLabelQueryPost : String :=
  "\" && DATATYPE(?d_id) = xsd:token)\n            FILTER(lang(?title) = \"\" || lang(?title) = \"en\")\n        \x7d LIMIT 1\n    "

/-- Embedding of `get_dataset_label`'s query construction: the user-supplied
`dataset_id` is interpolated verbatim between the two template halves — no
escaping function is applied anywhere in the source. -/
def get_dataset_label_query (dataset_id : String) : String :=
  datasetLabelQueryPre ++ dataset_id ++ datasetLabelQueryPost

/-! ## Memoization layer (`functools.lru_cache` on
`generate_item_construct`; `get_item_predicates` is uncached) -/

/-- Explicit model of `functools.lru_cache(maxsize=128)` on
`generate_item_construct`: the cache is an association list, most recently
used first, keyed by the exact argument tuple `(item, profile)`.  A hit
returns the stored value (no recomputation) and promotes the key; a miss
computes, inserts at the front and truncates to capacity 128.  The third
component reports whether the call was a hit. -/
def call_generate_item_construct (g : PGraph) (st : List ((Item × String) × String))
    (item : Item) (profile : String) :
    String × List ((Item × String) × String) × Bool :=
  match st.find? (fun e => decide (e.1 = (item, profile))) with
  | some e => (e.2, e :: st.eraseP (fun e2 => decide (e2.1 = (item, profile))), true)
  | none =>
    let v := generate_item_construct g item profile
    (v, (((item, profile), v) :: st).take 128, false)

/-- A call to `get_item_predicates`: the source function carries no cache
decorator, so every call — first or repeated — leaves the module's cache
state untouched and performs its profile-graph lookups anew; the third
component is the per-call probe count `get_item_predicates_probes`. -/
def call_get_item_predicates (st : List ((Item × String) × String)) (g : PGraph)
    (profile selected_class : String) :
    ItemPreds × List ((Item × String) × String) × Nat :=
  (get_item_predicates g profile selected_class, st,
    get_item_predicates_probes g profile selected_class)

/-- Well-formedness of the query-text cache: every stored value is the
query text of its key. -/
def GicWF (g : PGraph) (st : List ((Item × String) × String)) : Prop :=
  ∀ e ∈ st, e.2 = generate_item_construct g e.1.1 e.1.2

/-- A concrete profile graph with one node shape targeting one class,
declaring one include path. -/
def sampleProfileGraph : PGraph :=
  [("http://ex/prof", altrext ("hasNodeShape"), "shape1"),
   ("shape1", shacl ("targetClass"), "http://ex/C"),
   ("shape1", shacl ("path"), "http://ex/p1")]

/-- An item descriptor with no URI (and no identifier anywhere in the
arguments `generate_item_construct` consumes). -/
def noUriItem : Item :=
  { uri := none, selected_class := "http://ex/C", general_class := "http://ex/GC",
    link_constructor := "/link" }

/-! ### END OF DEFINITIONS: lemmas and theorems follow -/

theorem charCount_append (c : Char) (s t : String) :
    charCount c (s ++ t) = charCount c s + charCount c t := by
  simp [charCount, String.data_append, List.count_append]

theorem charCount_mk (c : Char) (l : List Char) :
    charCount c (String.mk l) = l.count c := rfl

theorem digitChar_range (n : Nat) :
    48 ≤ (digitChar n).toNat ∧ (digitChar n).toNat ≤ 57 := by
  have h : n % 10 < 10 := Nat.mod_lt _ (by omega)
  unfold digitChar
  interval_cases h : n % 10 <;> simp_all

theorem natDigitsGo_range : ∀ (fuel n : Nat), ∀ c ∈ natDigitsGo fuel n,
    48 ≤ c.toNat ∧ c.toNat ≤ 57 := by
  intro fuel
  induction fuel with
  | zero => intro n c hc; simp [natDigitsGo] at hc
  | succ fuel ih =>
    intro n c hc
    unfold natDigitsGo at hc
    split at hc
    · simp at hc
      subst hc
      exact digitChar_range n
    · rw [List.mem_append] at hc
      rcases hc with hc | hc
      · exact ih (n / 10) c hc
      · simp at hc
        subst hc
        exact digitChar_range n

theorem natDigits_range (n : Nat) :
    ∀ c ∈ natDigits n, 48 ≤ c.toNat ∧ c.toNat ≤ 57 :=
  natDigitsGo_range (n + 1) n

theorem charCount_natRepr_eq_zero (c : Char) (n : Nat)
    (h : c.toNat < 48 ∨ 57 < c.toNat) : charCount c (natRepr n) = 0 := by
  rw [natRepr, charCount_mk, List.count_eq_zero]
  intro hm
  have := natDigits_range n c hm
  omega

theorem charCount_joinSep (c : Char) (sep : String) (hs : charCount c sep = 0) :
    ∀ l : List String, charCount c (joinSep sep l) = (l.map (charCount c)).sum := by
  intro l
  induction l with
  | nil => simp [joinSep, charCount]
  | cons s rest ih =>
    cases rest with
    | nil => simp [joinSep]
    | cons t r =>
      simp only [joinSep, charCount_append, List.map_cons, List.sum_cons] at *
      omega

theorem charCount_concatAll (c : Char) :
    ∀ l : List String, charCount c (concatAll l) = (l.map (charCount c)).sum := by
  intro l
  induction l with
  | nil => simp [concatAll, charCount]
  | cons s rest ih => simp [concatAll, charCount_append, ih]

theorem sum_map_const_one {α : Type} (l : List α) (f : α → Nat)
    (h : ∀ x ∈ l, f x = 1) : (l.map f).sum = l.length := by
  induction l with
  | nil => simp
  | cons s rest ih =>
    simp only [List.map_cons, List.sum_cons, List.length_cons]
    rw [h s (by simp), ih (fun x hx => h x (by simp [hx]))]
    omega

theorem mem_joinSep_infix (sep : String) (s : String) :
    ∀ l : List String, s ∈ l → s.data <:+: (joinSep sep l).data := by
  intro l
  induction l with
  | nil => intro h; simp at h
  | cons t rest ih =>
    intro h
    cases rest with
    | nil =>
      simp at h
      subst h
      exact List.infix_rfl
    | cons u r =>
      rw [List.mem_cons] at h
      rcases h with h | h
      · subst h
        show s.data <:+: (s ++ sep ++ joinSep sep (u :: r)).data
        simp only [String.data_append]
        exact ⟨[], sep.data ++ (joinSep sep (u :: r)).data, by simp⟩
      · have := ih h
        show s.data <:+: (t ++ sep ++ joinSep sep (u :: r)).data
        simp only [String.data_append]
        exact this.trans ⟨t.data ++ sep.data, [], by simp⟩

/-! ## Counting lemmas for the blank-node fragments -/

theorem natRepr_count_lb (n : Nat) : charCount '\x7b' (natRepr n) = 0 :=
  charCount_natRepr_eq_zero _ n (by decide)

theorem natRepr_count_rb (n : Nat) : charCount '\x7d' (natRepr n) = 0 :=
  charCount_natRepr_eq_zero _ n (by decide)

theorem natRepr_count_B (n : Nat) : charCount 'B' (natRepr n) = 0 :=
  charCount_natRepr_eq_zero _ n (by decide)

theorem natRepr_count_dot (n : Nat) : charCount '.' (natRepr n) = 0 :=
  charCount_natRepr_eq_zero _ n (by decide)

theorem sum_map_const_zero {α : Type} (l : List α) (f : α → Nat)
    (h : ∀ x ∈ l, f x = 0) : (l.map f).sum = 0 := by
  induction l with
  | nil => simp
  | cons s rest ih =>
    simp only [List.map_cons, List.sum_cons, List.length_cons]
    rw [h s (by simp), ih (fun x hx => h x (by simp [hx]))]

theorem tabs_count_of_ne (c : Char) (n : Nat) (h : ('\t' == c) = false) :
    charCount c (tabs n) = 0 := by
  simp [tabs, charCount_mk, List.count_replicate, h]

theorem tabs_count_lb (n : Nat) : charCount '\x7b' (tabs n) = 0 :=
  tabs_count_of_ne _ n (by decide)

theorem tabs_count_rb (n : Nat) : charCount '\x7d' (tabs n) = 0 :=
  tabs_count_of_ne _ n (by decide)

theorem tabs_count_B (n : Nat) : charCount 'B' (tabs n) = 0 :=
  tabs_count_of_ne _ n (by decide)

theorem bnodeConstructLine_count_dot (i : Nat) :
    charCount '.' (bnodeConstructLine i) = 1 := by
  unfold bnodeConstructLine bnodeTriple
  simp [charCount_append, natRepr_count_dot]
  decide

theorem bnodeSelectLine_count_lb (i : Nat) :
    charCount '\x7b' (bnodeSelectLine i) = 1 := by
  unfold bnodeSelectLine isblankGuard bnodeTriple
  simp [charCount_append, natRepr_count_lb, tabs_count_lb]
  decide

theorem bnodeSelectLine_count_rb (i : Nat) :
    charCount '\x7d' (bnodeSelectLine i) = 0 := by
  unfold bnodeSelectLine isblankGuard bnodeTriple
  simp [charCount_append, natRepr_count_rb, tabs_count_rb]
  decide

theorem bnodeSelectLine_count_B (i : Nat) :
    charCount 'B' (bnodeSelectLine i) = 1 := by
  unfold bnodeSelectLine isblankGuard bnodeTriple
  simp [charCount_append, natRepr_count_B, tabs_count_B]
  decide

theorem bnodeCloser_count_lb (i : Nat) : charCount '\x7b' (bnodeCloser i) = 0 := by
  unfold bnodeCloser
  simp [charCount_append, tabs_count_lb]
  decide

theorem bnodeCloser_count_rb (i : Nat) : charCount '\x7d' (bnodeCloser i) = 1 := by
  unfold bnodeCloser
  simp [charCount_append, tabs_count_rb]
  decide

theorem bnodeCloser_count_B (i : Nat) : charCount 'B' (bnodeCloser i) = 0 := by
  unfold bnodeCloser
  simp [charCount_append, tabs_count_B]
  decide

theorem bnodeSelectPartOne_count (d : Nat) :
    charCount '\x7b' (bnodeSelectPartOne d) = d
      ∧ charCount '\x7d' (bnodeSelectPartOne d) = 0
      ∧ charCount 'B' (bnodeSelectPartOne d) = d := by
  unfold bnodeSelectPartOne
  refine ⟨?_, ?_, ?_⟩ <;> rw [charCount_joinSep _ _ (by decide)]
  · rw [sum_map_const_one _ _ (by
      intro x hx
      obtain ⟨i, _, rfl⟩ := List.mem_map.mp hx
      exact bnodeSelectLine_count_lb i), List.length_map, List.length_range]
  · rw [sum_map_const_zero _ _ (by
      intro x hx
      obtain ⟨i, _, rfl⟩ := List.mem_map.mp hx
      exact bnodeSelectLine_count_rb i)]
  · rw [sum_map_const_one _ _ (by
      intro x hx
      obtain ⟨i, _, rfl⟩ := List.mem_map.mp hx
      exact bnodeSelectLine_count_B i), List.length_map, List.length_range]

theorem bnodeSelectPartTwo_count (d : Nat) :
    charCount '\x7b' (bnodeSelectPartTwo d) = 0
      ∧ charCount '\x7d' (bnodeSelectPartTwo d) = d
      ∧ charCount 'B' (bnodeSelectPartTwo d) = 0 := by
  unfold bnodeSelectPartTwo
  refine ⟨?_, ?_, ?_⟩ <;> rw [charCount_concatAll]
  · rw [sum_map_const_zero _ _ (by
      intro x hx
      obtain ⟨i, _, rfl⟩ := List.mem_map.mp hx
      exact bnodeCloser_count_lb i)]
  · rw [sum_map_const_one _ _ (by
      intro x hx
      obtain ⟨i, _, rfl⟩ := List.mem_map.mp hx
      exact bnodeCloser_count_rb i), List.length_map, List.length_reverse, List.length_range]
  · rw [sum_map_const_zero _ _ (by
      intro x hx
      obtain ⟨i, _, rfl⟩ := List.mem_map.mp hx
      exact bnodeCloser_count_B i)]

theorem bnodeConstruct_count_dot (d : Nat) :
    charCount '.' (generate_bnode_construct d) = d := by
  unfold generate_bnode_construct
  rw [charCount_append, charCount_joinSep _ _ (by decide)]
  rw [sum_map_const_one _ _ (by
    intro x hx
    obtain ⟨i, _, rfl⟩ := List.mem_map.mp hx
    exact bnodeConstructLine_count_dot i), List.length_map, List.length_range]
  have h0 : charCount '.' ("\n") = 0 := by decide
  omega

theorem bnodeTriple_infix_construct (d i : Nat) (h : i < d) :
    (bnodeTriple i).data <:+: (generate_bnode_construct d).data := by
  have hline : (bnodeTriple i).data <:+: (bnodeConstructLine i).data :=
    ⟨("\t").data, [], by simp [bnodeConstructLine, String.data_append]⟩
  have hmem : bnodeConstructLine i ∈ (List.range d).map bnodeConstructLine :=
    List.mem_map.mpr ⟨i, List.mem_range.mpr h, rfl⟩
  have hjoin := mem_joinSep_infix ("\n") (bnodeConstructLine i) _ hmem
  exact hline.trans (hjoin.trans
    ⟨("\n").data, [], by simp [generate_bnode_construct, String.data_append]⟩)

theorem bnodeTriple_infix_selectLine (i : Nat) :
    (bnodeTriple i).data <:+: (bnodeSelectLine i).data :=
  ⟨(tabs (i + 1) ++ "OPTIONAL \x7b\n" ++ tabs (i + 2) ++ isblankGuard i ++ "\n"
      ++ tabs (i + 2)).data, [],
    by simp [bnodeSelectLine, String.data_append]⟩

theorem isblankGuard_infix_selectLine (i : Nat) :
    (isblankGuard i).data <:+: (bnodeSelectLine i).data :=
  ⟨(tabs (i + 1) ++ "OPTIONAL \x7b\n" ++ tabs (i + 2)).data,
    ("\n" ++ tabs (i + 2) ++ bnodeTriple i).data,
    by simp [bnodeSelectLine, String.data_append]⟩

theorem selectLine_infix_select (d i : Nat) (h : i < d) :
    (bnodeSelectLine i).data <:+: (generate_bnode_select d).data := by
  have hmem : bnodeSelectLine i ∈ (List.range d).map bnodeSelectLine :=
    List.mem_map.mpr ⟨i, List.mem_range.mpr h, rfl⟩
  have hjoin := mem_joinSep_infix ("\n") (bnodeSelectLine i) _ hmem
  exact hjoin.trans
    ⟨[], (bnodeSelectPartTwo d).data,
      by simp [generate_bnode_select, bnodeSelectPartOne, String.data_append]⟩

/-- C3: for every non-negative blank-node depth `d`, the WHERE fragment of
`generate_bnode_select` contains exactly `d` `OPTIONAL` blocks — `d`
opening braces, all of which precede all `d` closing braces, so the blocks
are nested — each guarded by an `ISBLANK` filter (`d` occurrences of the
letter `B`, which occurs only inside `ISBLANK`, and the guard
`FILTER(ISBLANK(?o_(i+1)))` occurs for every `i < d`); the CONSTRUCT
fragment of `generate_bnode_construct` contains exactly `d` expansion
triples (`d` dots, one per triple terminator, and the triple
`?o_(i+1) ?p_(i+2) ?o_(i+2) .` occurs for every `i < d`); at depth 0 both
fragments degrade to no blank-node content; and each triple text occurs in
both fragments, so the variables the CONSTRUCT fragment references are
exactly the ones the WHERE fragment binds. -/
theorem bnode_fragments_depth_exact (d : Nat) :
    charCount '\x7b' (generate_bnode_select d) = d
  ∧ charCount '\x7d' (generate_bnode_select d) = d
  ∧ charCount 'B' (generate_bnode_select d) = d
  ∧ generate_bnode_select d = bnodeSelectPartOne d ++ bnodeSelectPartTwo d
  ∧ charCount '\x7d' (bnodeSelectPartOne d) = 0
  ∧ charCount '\x7b' (bnodeSelectPartTwo d) = 0
  ∧ charCount '.' (generate_bnode_construct d) = d
  ∧ generate_bnode_select 0 = ""
  ∧ generate_bnode_construct 0 = "\n"
  ∧ (∀ i, i < d →
      (bnodeTriple i).data <:+: (generate_bnode_construct d).data
      ∧ (bnodeTriple i).data <:+: (generate_bnode_select d).data
      ∧ (isblankGuard i).data <:+: (generate_bnode_select d).data) := by
  obtain ⟨h1a, h1b, h1c⟩ := bnodeSelectPartOne_count d
  obtain ⟨h2a, h2b, h2c⟩ := bnodeSelectPartTwo_count d
  refine ⟨?_, ?_, ?_, rfl, h1b, h2a, bnodeConstruct_count_dot d, rfl, rfl, ?_⟩
  · show charCount _ (bnodeSelectPartOne d ++ bnodeSelectPartTwo d) = d
    rw [charCount_append, h1a, h2a]
    omega
  · show charCount _ (bnodeSelectPartOne d ++ bnodeSelectPartTwo d) = d
    rw [charCount_append, h1b, h2b]
    omega
  · show charCount _ (bnodeSelectPartOne d ++ bnodeSelectPartTwo d) = d
    rw [charCount_append, h1c, h2c]
    omega
  · intro i hi
    exact ⟨bnodeTriple_infix_construct d i hi,
      (bnodeTriple_infix_selectLine i).trans (selectLine_infix_select d i hi),
      (isblankGuard_infix_selectLine i).trans (selectLine_infix_select d i hi)⟩

/-- Witness for `bnode_fragments_depth_exact`: at depth 2 the step-0 triple
and guard do occur in both fragments. -/
theorem bnode_fragments_depth_exact_witness :
    (bnodeTriple 0).data <:+: (generate_bnode_construct 2).data
  ∧ (bnodeTriple 0).data <:+: (generate_bnode_select 2).data
  ∧ (isblankGuard 0).data <:+: (generate_bnode_select 2).data :=
  (bnode_fragments_depth_exact 2).2.2.2.2.2.2.2.2.2 0 (by decide)

/-! ## Lemmas for the sequence-path fragment builder -/

theorem append_merge (a b c d : String) (h : b ++ c = d) : a ++ b ++ c = a ++ d := by
  rw [String.append_assoc, h]

theorem seqTriplesAux_length : ∀ (ps : List String) (i : Nat),
    (seqTriplesAux i ps).length = ps.length := by
  intro ps
  induction ps with
  | nil => intro i; rfl
  | cons p ps ih => intro i; simp [seqTriplesAux, ih]

theorem seqTriplesAux_map_pred : ∀ (ps : List String) (i : Nat),
    (seqTriplesAux i ps).map (fun t => t.2.1) = ps := by
  intro ps
  induction ps with
  | nil => intro i; rfl
  | cons p ps ih => intro i; simp [seqTriplesAux, ih]

theorem seqTriplesAux_getD : ∀ (ps : List String) (i j : Nat), j < ps.length →
    (seqTriplesAux i ps).getD j ("", "", "") =
      ("?seq_o" ++ natRepr (i + j), ps.getD j "", "?seq_o" ++ natRepr (i + j + 1)) := by
  intro ps
  induction ps with
  | nil => intro i j hj; simp at hj
  | cons p ps ih =>
    intro i j hj
    cases j with
    | zero => simp [seqTriplesAux]
    | succ j =>
      simp only [seqTriplesAux, List.getD_cons_succ]
      rw [ih (i + 1) j (by simpa using hj)]
      have h1 : i + 1 + j = i + (j + 1) := by omega
      rw [h1]

theorem seqRest_eq_renderAux : ∀ (ps : List String) (i : Nat),
    seqRest i ps = concatAll ((seqTriplesAux i ps).map (fun t => "\n\t" ++ renderSeqTriple t)) := by
  intro ps
  induction ps with
  | nil => intro i; rfl
  | cons p ps ih =>
    intro i
    simp only [seqRest, seqTriplesAux, List.map_cons, concatAll, renderSeqTriple, ih]
    simp only [← String.append_assoc]
    rw [append_merge _ _ _ _ (by decide : ("> " : String) ++ "?seq_o" = "> ?seq_o"),
      (by decide : ("\n\t" : String) ++ "?seq_o" = "\n\t?seq_o")]

theorem renderSeqChain_eq_renderTriplesList (o : String) (pl : List String) :
    renderSeqChain o pl = renderTriplesList (seqTriples o pl) := by
  cases pl with
  | nil => rfl
  | cons p ps =>
    simp only [renderSeqChain, seqTriples, renderTriplesList, seqFirstTriple, renderSeqTriple,
      seqRest_eq_renderAux]
    simp only [← String.append_assoc]
    rw [append_merge _ _ _ _ (by decide : (">" : String) ++ " <" = "> <"),
      append_merge _ _ _ _ (by decide : ("> " : String) ++ "?seq_o1" = "> ?seq_o1"),
      append_merge _ _ _ _ (by decide : ("> ?seq_o1" : String) ++ " ." = "> ?seq_o1 ."),
      (by decide : ("\t" : String) ++ "<" = "\t<")]

theorem append_gt_inj : ∀ (p q u v : List Char), '>' ∉ p → '>' ∉ q →
    p ++ '>' :: u = q ++ '>' :: v → p = q ∧ u = v := by
  intro p
  induction p with
  | nil =>
    intro q u v _ hq h
    cases q with
    | nil => simpa using h
    | cons c cs =>
      simp only [List.nil_append, List.cons_append, List.cons.injEq] at h
      obtain ⟨h1, _⟩ := h
      exact absurd (h1 ▸ List.mem_cons_self c cs) hq
  | cons c cs ih =>
    intro q u v hp hq h
    cases q with
    | nil =>
      simp only [List.cons_append, List.nil_append, List.cons.injEq] at h
      obtain ⟨h1, _⟩ := h
      exact absurd (h1 ▸ List.mem_cons_self c cs) hp
    | cons d ds =>
      simp only [List.cons_append, List.cons.injEq] at h
      obtain ⟨rfl, h2⟩ := h
      have hrec := ih ds u v (fun hm => hp (List.mem_cons_of_mem _ hm))
        (fun hm => hq (List.mem_cons_of_mem _ hm)) h2
      exact ⟨by rw [hrec.1], hrec.2⟩

theorem seqRest_ne : ∀ (ps qs : List String) (i : Nat), ps.length = qs.length →
    ps ≠ qs → (∀ p ∈ ps, '>' ∉ p.data) → (∀ q ∈ qs, '>' ∉ q.data) →
    seqRest i ps ≠ seqRest i qs := by
  intro ps
  induction ps with
  | nil =>
    intro qs i hlen hne _ _
    cases qs with
    | nil => exact absurd rfl hne
    | cons q qs => simp at hlen
  | cons p ps ih =>
    intro qs i hlen hne hfp hfq
    cases qs with
    | nil => simp at hlen
    | cons q qs =>
      intro h
      have hd := congrArg String.data h
      simp only [seqRest, String.data_append, List.append_assoc] at hd
      have h1 := List.append_cancel_left hd
      have h2 := List.append_cancel_left h1
      have h3 := List.append_cancel_left h2
      simp only [List.cons_append, List.nil_append] at h3
      obtain ⟨hpq, hrest⟩ := append_gt_inj _ _ _ _ (hfp p (by simp)) (hfq q (by simp)) h3
      by_cases hpq2 : p = q
      · subst hpq2
        have hne2 : ps ≠ qs := fun he => hne (by rw [he])
        simp only [List.cons.injEq, true_and] at hrest
        have h4 := List.append_cancel_left hrest
        simp only [List.cons.injEq, true_and] at h4
        exact absurd (String.ext h4)
          (ih qs (i + 1) (by simpa using hlen) hne2
            (fun x hx => hfp x (by simp [hx])) (fun x hx => hfq x (by simp [hx])))
      · exact hpq2 (String.ext hpq)

theorem renderSeqChain_ne (o : String) : ∀ (pl ql : List String), pl.length = ql.length →
    pl ≠ ql → (∀ p ∈ pl, '>' ∉ p.data) → (∀ q ∈ ql, '>' ∉ q.data) →
    renderSeqChain o pl ≠ renderSeqChain o ql := by
  intro pl ql hlen hne hfp hfq h
  cases pl with
  | nil =>
    cases ql with
    | nil => exact absurd rfl hne
    | cons q qs => simp at hlen
  | cons p ps =>
    cases ql with
    | nil => simp at hlen
    | cons q qs =>
      have hd := congrArg String.data h
      simp only [renderSeqChain, seqFirstTriple, String.data_append, List.append_assoc] at hd
      have h1 := List.append_cancel_left hd
      have h2 := List.append_cancel_left h1
      have h3 := List.append_cancel_left h2
      simp only [List.cons_append, List.nil_append] at h3
      obtain ⟨hpq, hrest⟩ := append_gt_inj _ _ _ _ (hfp p (by simp)) (hfq q (by simp)) h3
      by_cases hpq2 : p = q
      · subst hpq2
        have hne2 : ps ≠ qs := fun he => hne (by rw [he])
        simp only [List.cons.injEq, true_and] at hrest
        exact absurd (String.ext hrest)
          (seqRest_ne ps qs 1 (by simpa using hlen) hne2
            (fun x hx => hfp x (by simp [hx])) (fun x hx => hfq x (by simp [hx])))
      · exact hpq2 (String.ext hpq)

/-- C4 (amended): for every non-empty chain, `renderSeqChain` (the
per-chain rendering of `generate_sequence_construct`) realises exactly
`pl.length` triples whose predicates are the chain in source order, whose
first subject is the bracketed object URI and whose every later subject is
the previous triple's object variable; reversing a chain (when that changes
the list, predicates being `>`-free) changes the generated text; the full
builder concatenates the chain renderings; and every chain's rendering uses
the intermediate variable `?seq_o1` — the numbering restarts at 1 for each
chain, so chains in one call share intermediate-variable names rather than
receiving fresh ones. -/
theorem seq_chain_structure (o : String) (pl : List String) (hne : pl ≠ []) :
    (seqTriples o pl).length = pl.length
  ∧ (seqTriples o pl).map (fun t => t.2.1) = pl
  ∧ ((seqTriples o pl).headD ("", "", "")).1 = "<" ++ o ++ ">"
  ∧ (∀ j, j + 1 < pl.length →
      ((seqTriples o pl).getD (j + 1) ("", "", "")).1
        = ((seqTriples o pl).getD j ("", "", "")).2.2)
  ∧ renderSeqChain o pl = renderTriplesList (seqTriples o pl)
  ∧ (pl.reverse ≠ pl → (∀ p ∈ pl, '>' ∉ p.data) →
      renderSeqChain o pl ≠ renderSeqChain o pl.reverse)
  ∧ (∀ chains : List (List String), truthyList chains = true →
      generate_sequence_construct o chains = concatAll (chains.map (renderSeqChain o)))
  ∧ ("?seq_o1").data <:+: (renderSeqChain o pl).data := by
  refine ⟨?_, ?_, ?_, ?_, renderSeqChain_eq_renderTriplesList o pl, ?_, ?_, ?_⟩
  · cases pl with
    | nil => exact absurd rfl hne
    | cons p ps => simp [seqTriples, seqTriplesAux_length]
  · cases pl with
    | nil => exact absurd rfl hne
    | cons p ps => simp [seqTriples, seqTriplesAux_map_pred]
  · cases pl with
    | nil => exact absurd rfl hne
    | cons p ps => simp [seqTriples]
  · cases pl with
    | nil => exact absurd rfl hne
    | cons p ps =>
      intro j hj
      cases j with
      | zero =>
        simp only [seqTriples, List.getD_cons_succ, List.getD_cons_zero]
        rw [seqTriplesAux_getD ps 1 0 (by simp at hj; omega)]
        exact (by decide : ("?seq_o" ++ natRepr (1 + 0) : String) = "?seq_o1")
      | succ j =>
        simp only [seqTriples, List.getD_cons_succ]
        rw [seqTriplesAux_getD ps 1 (j + 1) (by simp at hj; omega),
          seqTriplesAux_getD ps 1 j (by simp at hj; omega)]
        have h1 : 1 + (j + 1) = 1 + j + 1 := by omega
        rw [h1]
  · intro h1 h2
    exact renderSeqChain_ne o pl pl.reverse (by simp) (fun he => h1 he.symm) h2
      (fun x hx => h2 x (List.mem_reverse.mp hx))
  · intro chains htr
    simp [generate_sequence_construct, htr]
  · cases pl with
    | nil => exact absurd rfl hne
    | cons p ps =>
      have h1 : ("?seq_o1").data <:+: ("> ?seq_o1 .").data := by decide
      refine h1.trans ?_
      show ("> ?seq_o1 .").data <:+: (seqFirstTriple o p ++ seqRest 1 ps).data
      refine ⟨("\t<").data ++ o.data ++ ("> <").data ++ p.data, (seqRest 1 ps).data, ?_⟩
      simp [seqFirstTriple, String.data_append, List.append_assoc]

/-- C4 counterexample: rendering the two chains `(a, b)` and `(c, d)` in one
call yields the two chain fragments concatenated, and both fragments use
the same intermediate variables `?seq_o1` and `?seq_o2` — the intermediate
variables of distinct chains are shared, not fresh. -/
theorem seq_chains_share_intermediate_vars :
    generate_sequence_construct ("http://ex/o")
        [["http://ex/a", "http://ex/b"], ["http://ex/c", "http://ex/d"]]
      = renderSeqChain ("http://ex/o") (["http://ex/a", "http://ex/b"])
        ++ renderSeqChain ("http://ex/o") (["http://ex/c", "http://ex/d"])
  ∧ ("?seq_o1").data <:+: (renderSeqChain ("http://ex/o") (["http://ex/a", "http://ex/b"])).data
  ∧ ("?seq_o1").data <:+: (renderSeqChain ("http://ex/o") (["http://ex/c", "http://ex/d"])).data
  ∧ ("?seq_o2").data <:+: (renderSeqChain ("http://ex/o") (["http://ex/a", "http://ex/b"])).data
  ∧ ("?seq_o2").data <:+: (renderSeqChain ("http://ex/o") (["http://ex/c", "http://ex/d"])).data := by
  refine ⟨?_, ?_, ?_, ?_, ?_⟩ <;> decide

/-- Witness for `seq_chain_structure`: the chain-linking equation at `j = 0`
and the reversal sensitivity, for a concrete two-predicate chain. -/
theorem seq_chain_structure_witness :
    ((seqTriples ("http://ex/s") (["http://ex/p", "http://ex/q"])).getD 1 ("", "", "")).1
      = ((seqTriples ("http://ex/s") (["http://ex/p", "http://ex/q"])).getD 0 ("", "", "")).2.2
  ∧ renderSeqChain ("http://ex/s") (["http://ex/p", "http://ex/q"])
      ≠ renderSeqChain ("http://ex/s") ((["http://ex/p", "http://ex/q"] : List String).reverse) :=
  ⟨(seq_chain_structure ("http://ex/s") (["http://ex/p", "http://ex/q"])
      (by decide)).2.2.2.1 0 (by decide),
   (seq_chain_structure ("http://ex/s") (["http://ex/p", "http://ex/q"])
      (by decide)).2.2.2.2.2.1 (by decide) (by decide)⟩

/-! ## Full-text-search theorems -/

/-- C5: for every full-text-search query built with caller limit `L` and
offset `O`, the inner SELECT's limit is exactly `L + 1` (the off-by-one
"has more pages" probe), its offset is `O` unchanged, and the inner SELECT
is ordered by `?weight` descending. -/
theorem fts_limit_offset_order (term : String) (limit offset : Int)
    (nsp : Option (List String)) (shacl : List (List String × List String))
    (tss : List (String × String × String)) :
    (mkSearchQueryFusekiFTS term limit offset nsp shacl tss).innerLimit = limit + 1
  ∧ (mkSearchQueryFusekiFTS term limit offset nsp shacl tss).innerOffset = offset
  ∧ (mkSearchQueryFusekiFTS term limit offset nsp shacl tss).innerOrder
      = [("weight", "DESC")] :=
  ⟨rfl, rfl, rfl⟩

/-- C6: the inner SELECT binds the synthetic result identifier exactly as
`URI(CONCAT("urn:hash:", SHA256(CONCAT(STR(?focus_node), STR(?pred),
STR(?match), STR(?weight)))))` — `STR` arguments in the order subject,
predicate, matched text, weight — under the variable `?hashID`; under any
abstract SHA256 function the expression evaluates to
`"urn:hash:" ++ sha(focus ++ pred ++ match ++ weight)`, a pure function of
the quadruple, so two environments agreeing on the four variables yield the
same identifier. -/
theorem fts_hash_bind (term : String) (limit offset : Int)
    (nsp : Option (List String)) (shacl : List (List String × List String))
    (tss : List (String × String × String)) :
    (mkSearchQueryFusekiFTS term limit offset nsp shacl tss).hashVarOf = "hashID"
  ∧ (mkSearchQueryFusekiFTS term limit offset nsp shacl tss).hashExprOf
      = .builtin ("URI") [.builtin ("CONCAT") [.lit ("urn:hash:"),
          .builtin ("SHA256") [.builtin ("CONCAT") [
            .builtin ("STR") [.v ("focus_node")],
            .builtin ("STR") [.v ("pred")],
            .builtin ("STR") [.v ("match")],
            .builtin ("STR") [.v ("weight")]]]]]
  ∧ (∀ sha env : String → String,
      evalExprF sha env 8 ((mkSearchQueryFusekiFTS term limit offset nsp shacl tss).hashExprOf)
        = "urn:hash:" ++ sha (env ("focus_node") ++ (env ("pred")
            ++ (env ("match") ++ env ("weight")))))
  ∧ (∀ sha env1 env2 : String → String,
      env1 ("focus_node") = env2 ("focus_node") → env1 ("pred") = env2 ("pred") →
      env1 ("match") = env2 ("match") → env1 ("weight") = env2 ("weight") →
      evalExprF sha env1 8 ((mkSearchQueryFusekiFTS term limit offset nsp shacl tss).hashExprOf)
        = evalExprF sha env2 8
            ((mkSearchQueryFusekiFTS term limit offset nsp shacl tss).hashExprOf)) := by
  have hval : ∀ sha env : String → String,
      evalExprF sha env 8 ((mkSearchQueryFusekiFTS term limit offset nsp shacl tss).hashExprOf)
        = "urn:hash:" ++ sha (env ("focus_node") ++ (env ("pred")
            ++ (env ("match") ++ env ("weight")))) := by
    intro sha env
    show evalExprF sha env 8 (.builtin ("URI") [.builtin ("CONCAT") [.lit ("urn:hash:"),
      .builtin ("SHA256") [.builtin ("CONCAT") [
        .builtin ("STR") [.v ("focus_node")],
        .builtin ("STR") [.v ("pred")],
        .builtin ("STR") [.v ("match")],
        .builtin ("STR") [.v ("weight")]]]]]) = _
    simp [evalExprF, concatAll]
  refine ⟨rfl, rfl, hval, ?_⟩
  intro sha env1 env2 h1 h2 h3 h4
  rw [hval sha env1, hval sha env2, h1, h2, h3, h4]

/-- Witness for `fts_hash_bind`: two environments that agree on the four
hash inputs (pointwise definitionally) produce the same identifier for a
concrete query. -/
theorem fts_hash_bind_witness :
    evalExprF (fun s => "sha256:" ++ s) (fun v => v) 8
        ((mkSearchQueryFusekiFTS ("t") 10 0 none [] []).hashExprOf)
      = evalExprF (fun s => "sha256:" ++ s) (fun v => "" ++ v) 8
        ((mkSearchQueryFusekiFTS ("t") 10 0 none [] []).hashExprOf) :=
  (fts_hash_bind ("t") 10 0 none [] []).2.2.2 (fun s => "sha256:" ++ s)
    (fun v => v) (fun v => "" ++ v) rfl rfl rfl rfl

theorem pySplitCh_ne_nil (sep : Char) : ∀ l : List Char, pySplitCh sep l ≠ [] := by
  intro l
  cases l with
  | nil => simp [pySplitCh]
  | cons c rest =>
    simp only [pySplitCh]
    split <;> simp

theorem joinCh_cons_head (sep c : Char) (r : List (List Char)) (h : r ≠ []) :
    joinCh sep ((c :: r.headD []) :: r.tail) = c :: joinCh sep r := by
  cases r with
  | nil => exact absurd rfl h
  | cons y ys =>
    cases ys with
    | nil => rfl
    | cons z zs => simp [joinCh, List.cons_append]

theorem joinCh_pySplitCh (l : List Char) :
    joinCh '+' (pySplitCh ' ' l) = l.map (fun c => if c = ' ' then '+' else c) := by
  induction l with
  | nil => rfl
  | cons c rest ih =>
    simp only [pySplitCh, List.map_cons]
    split
    · rename_i hc
      subst hc
      have hne := pySplitCh_ne_nil ' ' rest
      cases hr : pySplitCh ' ' rest with
      | nil => exact absurd hr hne
      | cons y ys =>
        rw [hr] at ih
        simp [joinCh, ih]
    · rw [joinCh_cons_head '+' c _ (pySplitCh_ne_nil ' ' rest), ih]

theorem normalizeTerm_eq_spacesToPlus (t : String) : normalizeTerm t = spacesToPlus t := by
  unfold normalizeTerm spacesToPlus
  rw [joinCh_pySplitCh]

/-- C7 counterexample: the source splits on the space character only
(`term.split(" ")`), not on whitespace: a tab survives normalization
unchanged — whitespace remains in the embedded phrase — and two adjacent
spaces yield two adjacent `+` characters, not tokens joined by a single
`+`. -/
theorem term_normalization_not_whitespace :
    normalizeTerm ("a\tb") = "a\tb"
  ∧ charCount '\t' (normalizeTerm ("a\tb")) = 1
  ∧ normalizeTerm ("a  b") = "a++b"
  ∧ ("a++b" : String) ≠ "a+b"
  ∧ ((mkSearchQueryFusekiFTS ("a\tb") 10 0 (some (["http://ex/p"])) [] []).sub.groupBlocks.map
      (fun b => b.block.termLit)) = ["a\tb"]
  ∧ ((mkSearchQueryFusekiFTS ("a  b") 10 0 (some (["http://ex/p"])) [] []).sub.groupBlocks.map
      (fun b => b.block.termLit)) = ["a++b"] := by
  refine ⟨?_, ?_, ?_, ?_, ?_, ?_⟩ <;> decide

/-- C7 (amended): the phrase embedded in the generated query is the input
split on single space characters and rejoined with `+` — equivalently, the
input with every space replaced by a `+`; runs of `k` spaces become `k`
`+` characters and non-space whitespace is preserved.  Every `text:query`
block of the generated query embeds exactly this normalized phrase. -/
theorem term_normalization_replaces_spaces (t : String) (limit offset : Int)
    (nsp : Option (List String)) (shacl : List (List String × List String))
    (tss : List (String × String × String)) :
    normalizeTerm t = spacesToPlus t
  ∧ (((mkSearchQueryFusekiFTS t limit offset nsp shacl tss).sub.groupBlocks.map
      (fun b => b.block.termLit)).all (fun s => s == spacesToPlus t)) = true := by
  refine ⟨normalizeTerm_eq_spacesToPlus t, ?_⟩
  rw [List.all_eq_true]
  intro x hx
  rw [List.mem_map] at hx
  obtain ⟨b, hb, rfl⟩ := hx
  simp only [mkSearchQueryFusekiFTS, List.mem_append] at hb
  have hterm : b.block.termLit = normalizeTerm t := by
    rcases hb with hb | hb
    · cases nsp with
      | none => simp at hb
      | some ps =>
        by_cases hps : ps.isEmpty <;> simp [hps] at hb
        rw [hb]
    · rw [List.mem_map] at hb
      obtain ⟨pr, _, rfl⟩ := hb
      rfl
  rw [hterm, normalizeTerm_eq_spacesToPlus]
  simp

/-! ## Negotiation, listing, item-construct and injection theorems -/

/-- C8: every generated profile/mediatype negotiation query ends with the
constant solution tail: GROUP BY the seven variables (class, profile,
requested-profile flag, default-profile flag, format, requested-format
value, default-format flag), ORDER BY requested-profile-match DESC, then
subclass distance DESC, then default-profile DESC, then requested-format
DESC, then default-format DESC, and LIMIT 1 — so exactly one row is
selected. -/
theorem profile_mediatype_group_order_limit (classes : List String)
    (rp : Option String) (rm : Option (List (String × String))) :
    select_profile_mediatype classes rp rm
      = selectProfileMediatypeBody classes rp rm ++ selectProfileMediatypeTail
  ∧ selectProfileMediatypeTail
      = "\nGROUP BY ?class ?profile ?req_profile ?def_profile ?format ?req_format ?def_format\nORDER BY DESC(?req_profile) DESC(?distance) DESC(?def_profile) DESC(?req_format) DESC(?def_format)\nLIMIT 1\n        "
  ∧ (selectProfileMediatypeTail).data <:+ (select_profile_mediatype classes rp rm).data :=
  ⟨rfl, rfl,
    ⟨(selectProfileMediatypeBody classes rp rm).data,
      by simp [select_profile_mediatype, String.data_append]⟩⟩

/-- C2: when the parent item has a (truthy) URI and predicate resolution
for (profile, selected class) yields all four predicate lists empty,
`generate_listing_construct` returns the empty-string sentinel. -/
theorem listing_construct_empty_sentinel (g : PGraph) (parent_item : Item) (profile : String)
    (page per_page : Option Int)
    (hu : truthyOpt parent_item.uri = true)
    (hp : get_listing_predicates g profile parent_item.selected_class = ([], [], [], [])) :
    generate_listing_construct g parent_item profile page per_page = "" := by
  unfold generate_listing_construct
  rw [hp]
  simp [hu, truthyList]

/-- Witness for `listing_construct_empty_sentinel`: a parent with a URI
over an empty profile graph. -/
theorem listing_construct_empty_sentinel_witness :
    truthyOpt (some ("http://ex/d")) = true
  ∧ get_listing_predicates [] ("http://ex/prof") ("http://ex/K") = ([], [], [], [])
  ∧ generate_listing_construct []
      ⟨some ("http://ex/d"), "http://ex/K", "http://ex/GC", "/link"⟩
      ("http://ex/prof") (some 1) (some 20) = "" :=
  ⟨by decide, by decide,
   listing_construct_empty_sentinel []
     ⟨some ("http://ex/d"), "http://ex/K", "http://ex/GC", "/link"⟩
     ("http://ex/prof") (some 1) (some 20) (by decide) (by decide)⟩

set_option maxRecDepth 40000 in
/-- C1 counterexample: `generate_item_construct` performs no
missing-identifier check — applied to an item with no URI (and no
identifier among the arguments it consumes) it returns a query string,
interpolating the text `None` as the subject IRI, instead of raising. -/
theorem item_construct_no_uri_returns_query :
    ("<None>").data <:+: (generate_item_construct [] noUriItem ("http://ex/prof")).data
  ∧ generate_item_construct [] noUriItem ("http://ex/prof") ≠ "" := by
  refine ⟨?_, ?_⟩ <;> decide

set_option maxRecDepth 40000 in
/-- C1 (amended): of the two cited item-construct generators, the dataset
construct service raises — with the source's message, before any query text
exists — exactly when neither an identifier nor a URI is supplied, and
returns a query otherwise; `generate_item_construct` itself never checks:
for every item whose URI is absent it still returns a query string
containing `<None>`. -/
theorem dataset_construct_requires_id_or_uri (dataset_id dataset_uri : Option String) :
    (dataset_id = none → dataset_uri = none →
      get_dataset_construct_query dataset_id dataset_uri
        = .error ("Either an ID or a URI must be provided for a SPARQL query"))
  ∧ ((dataset_id ≠ none ∨ dataset_uri ≠ none) →
      ∃ q, get_dataset_construct_query dataset_id dataset_uri = .ok q)
  ∧ (∀ (g : PGraph) (item : Item) (profile : String), item.uri = none →
      ("<None>").data <:+: (generate_item_construct g item profile).data) := by
  refine ⟨?_, ?_, ?_⟩
  · intro h1 h2
    subst h1
    subst h2
    rfl
  · intro h
    cases dataset_id with
    | none =>
      cases dataset_uri with
      | none => rcases h with h | h <;> exact absurd rfl h
      | some u => exact ⟨_, rfl⟩
    | some i =>
      cases dataset_uri with
      | none => exact ⟨_, rfl⟩
      | some u => exact ⟨_, rfl⟩
  · intro g item profile hu
    have h1 : ("<None>").data <:+: (itemConstructHead item.uri).data := by
      rw [hu]
      decide
    exact h1.trans
      ⟨[], (restOfItemConstruct g item profile).data,
        by simp [generate_item_construct, String.data_append]⟩

/-- Witness for `dataset_construct_requires_id_or_uri`: the error at
`(None, None)`, a query for a present identifier, and the `<None>`
interpolation for a concrete URI-less item. -/
theorem dataset_construct_requires_id_or_uri_witness :
    get_dataset_construct_query none none
      = .error ("Either an ID or a URI must be provided for a SPARQL query")
  ∧ (∃ q, get_dataset_construct_query (some ("abc")) none = .ok q)
  ∧ ("<None>").data <:+: (generate_item_construct [] noUriItem ("http://ex/prof")).data :=
  ⟨(dataset_construct_requires_id_or_uri none none).1 rfl rfl,
   (dataset_construct_requires_id_or_uri (some ("abc")) none).2.1 (Or.inl (by simp)),
   (dataset_construct_requires_id_or_uri none none).2.2 [] noUriItem ("http://ex/prof") rfl⟩

set_option maxRecDepth 40000 in
/-- C9: the `dataset_id` literal is embedded verbatim — the template is
exactly `pre ++ dataset_id ++ post` with no escaping function applied; a
benign identifier leaves the query's six quotes balanced, while an
identifier containing a quote yields seven (a dangling quote), and the
fragment `= "a"b"` appears verbatim: the injected quote terminates the
enclosing literal after `a` and alters the query structure. -/
theorem dataset_label_query_unescaped :
    (∀ s : String, get_dataset_label_query s = datasetLabelQueryPre ++ s ++ datasetLabelQueryPost)
  ∧ charCount '"' (get_dataset_label_query ("ab")) = 6
  ∧ charCount '"' (get_dataset_label_query ("a\"b")) = 7
  ∧ ("= \"a\"b\"").data <:+: (get_dataset_label_query ("a\"b")).data
  ∧ ("\"a\"b\"^^xsd:token").data <:+:
      (((get_dataset_construct_query (some ("a\"b")) none).toOption).getD ("")).data := by
  refine ⟨fun s => rfl, ?_, ?_, ?_, ?_⟩ <;> decide

set_option maxRecDepth 40000 in
/-- C10 counterexample: `get_item_predicates` is not memoized — it carries
no `lru_cache` decorator (the module's only cache wraps
`generate_item_construct`): a second call with identical `(profile, class)`
arguments performs the same five profile-graph lookups again, not zero,
though it does return an equal result. -/
theorem item_predicates_not_memoized :
    (call_get_item_predicates [] sampleProfileGraph ("http://ex/prof") ("http://ex/C")).2.2 = 5
  ∧ (call_get_item_predicates
      (call_get_item_predicates [] sampleProfileGraph ("http://ex/prof") ("http://ex/C")).2.1
      sampleProfileGraph ("http://ex/prof") ("http://ex/C")).2.2 = 5
  ∧ (call_get_item_predicates
      (call_get_item_predicates [] sampleProfileGraph ("http://ex/prof") ("http://ex/C")).2.1
      sampleProfileGraph ("http://ex/prof") ("http://ex/C")).1
      = (call_get_item_predicates [] sampleProfileGraph ("http://ex/prof") ("http://ex/C")).1 := by
  refine ⟨?_, ?_, ?_⟩ <;> decide

/-- C10 (amended): the LRU memoization sits on `generate_item_construct`,
keyed by the exact `(item, profile)` tuple with capacity 128: on a
well-formed cache a call returns the query text, and an identical second
call is a hit returning an equal string without recomputation, preserving
well-formedness.  Item-predicate resolution itself is unmemoized: any call
leaves the cache state unchanged and performs at least one profile-graph
lookup. -/
theorem item_construct_memoized (g : PGraph) (st : List ((Item × String) × String))
    (item : Item) (profile : String) (hwf : GicWF g st) :
    (call_generate_item_construct g st item profile).1 = generate_item_construct g item profile
  ∧ (call_generate_item_construct g (call_generate_item_construct g st item profile).2.1
      item profile).1 = (call_generate_item_construct g st item profile).1
  ∧ (call_generate_item_construct g (call_generate_item_construct g st item profile).2.1
      item profile).2.2 = true
  ∧ GicWF g (call_generate_item_construct g st item profile).2.1
  ∧ (∀ st2, call_get_item_predicates st2 g profile item.selected_class
      = (get_item_predicates g profile item.selected_class, st2,
         get_item_predicates_probes g profile item.selected_class)
      ∧ 1 ≤ get_item_predicates_probes g profile item.selected_class) := by
  have hprobe : 1 ≤ get_item_predicates_probes g profile item.selected_class := by
    unfold get_item_predicates_probes
    dsimp only
    split
    · omega
    · split <;> omega
  cases hf : st.find? (fun e => decide (e.1 = (item, profile))) with
  | some e =>
    have hmem := List.mem_of_find?_eq_some hf
    have hkey : e.1 = (item, profile) := by
      have h := List.find?_some hf
      simpa using h
    have hval : e.2 = generate_item_construct g item profile := by
      rw [hwf e hmem, hkey]
    have hsecond : (e :: st.eraseP (fun e2 => decide (e2.1 = (item, profile)))).find?
        (fun e2 => decide (e2.1 = (item, profile))) = some e :=
      List.find?_cons_of_pos _ (by simp [hkey])
    refine ⟨?_, ?_, ?_, ?_, fun st2 => ⟨rfl, hprobe⟩⟩
    · simp [call_generate_item_construct, hf, hval]
    · simp [call_generate_item_construct, hf, hsecond]
    · simp [call_generate_item_construct, hf, hsecond]
    · simp only [call_generate_item_construct, hf]
      intro e2 he2
      rcases List.mem_cons.mp he2 with he2 | he2
      · rw [he2]
        exact hwf e hmem
      · exact hwf e2 ((List.eraseP_sublist st).mem he2)
  | none =>
    have hsecond : ((((item, profile), generate_item_construct g item profile) :: st).take
        128).find? (fun e2 => decide (e2.1 = (item, profile)))
        = some ((item, profile), generate_item_construct g item profile) := by
      rw [List.take_succ_cons]
      exact List.find?_cons_of_pos _ (by simp)
    refine ⟨?_, ?_, ?_, ?_, fun st2 => ⟨rfl, hprobe⟩⟩
    · simp [call_generate_item_construct, hf]
    · simp [call_generate_item_construct, hf, hsecond]
    · simp [call_generate_item_construct, hf, hsecond]
    · simp only [call_generate_item_construct, hf]
      intro e2 he2
      have he3 := List.take_subset _ _ he2
      rcases List.mem_cons.mp he3 with he3 | he3
      · rw [he3]
      · exact hwf e2 he3

/-- Witness for `item_construct_memoized`: starting from the empty
(vacuously well-formed) cache, the repeated call is a hit. -/
theorem item_construct_memoized_witness :
    (call_generate_item_construct sampleProfileGraph
      (call_generate_item_construct sampleProfileGraph [] noUriItem ("http://ex/prof")).2.1
      noUriItem ("http://ex/prof")).2.2 = true :=
  (item_construct_memoized sampleProfileGraph [] noUriItem ("http://ex/prof")
    (fun e he => absurd he (List.not_mem_nil e))).2.2.1
